import Mathlib

/-!
Verification of the causal replication core of a federated chat node.

The Python sources are shallowly embedded as follows:
* a Python `dict` is a `Finmap` (Python `==` on dicts ignores insertion
  order, exactly the `Finmap` equality);
* `float` timestamps (`time.time()` seconds) are modelled as `ℚ`: the
  claims only compare and store concrete small values, never exercise
  rounding;
* methods that mutate `self` are state transformers returning the new
  state next to the Python return value;
* the sqlite connection discipline (`connect` / `execute` / `commit` /
  `close`) is modelled explicitly: uncommitted writes are rolled back
  when the connection closes.
-/

/-- `VectorClock` from src/src/core/message.py: `Dict[str, int]`,
mapping node identifier to counter. -/
abbrev VectorClock := Finmap (fun _ : String => Nat)

/-- Python `clock.get(k, 0)`: lookup with default `0`. -/
def vcGet (c : VectorClock) (k : String) : Nat :=
  (c.lookup k).getD 0

/-- `VectorClockService.increment` (src/src/core/vector_clock.py):
copy the clock and raise `node_id`'s counter by 1 (absent key treated
as 0). -/
def VectorClockService.increment (clock : VectorClock) (node_id : String) : VectorClock :=
  clock.insert node_id (vcGet clock node_id + 1)

/-- One iteration of the `for node in all_nodes` loop of
`VectorClockService.merge`: store the value `f node` under `node`
(the value depends only on the key). -/
def insertKeyed (f : String → Nat) (m : VectorClock) (k : String) : VectorClock :=
  m.insert k (f k)

instance insertKeyed_rightComm (f : String → Nat) : RightCommutative (insertKeyed f) := by
  constructor
  intro m k1 k2
  unfold insertKeyed
  apply Finmap.ext_lookup
  intro x
  by_cases h2 : x = k2
  · subst h2
    by_cases h1 : x = k1
    · subst h1; simp [Finmap.lookup_insert]
    · simp [Finmap.lookup_insert, Finmap.lookup_insert_of_ne _ h1]
  · by_cases h1 : x = k1
    · subst h1
      simp [Finmap.lookup_insert, Finmap.lookup_insert_of_ne _ h2]
    · simp [Finmap.lookup_insert_of_ne _ h1, Finmap.lookup_insert_of_ne _ h2]

/-- `VectorClockService.merge` (src/src/core/vector_clock.py): iterate
over the union of the two key sets (a Python `set`, hence unordered -
a multiset fold with a right-commutative step) and take the per-key
maximum with absent keys treated as 0. -/
def VectorClockService.merge (clock_a clock_b : VectorClock) : VectorClock :=
  Multiset.foldl (insertKeyed fun node => max (vcGet clock_a node) (vcGet clock_b node))
    ∅ (clock_a.keys ∪ clock_b.keys).val

/-- `NodeState` from src/src/core/node_state.py: node identifier plus
the per-room vector clocks. -/
structure NodeState where
  node_id : String
  room_clocks : Finmap (fun _ : String => VectorClock)
deriving DecidableEq

/-- `NodeState.join_room`: seed the clock mapping the node id to 0 only
when the room has no clock yet. -/
def NodeState.join_room (s : NodeState) (room_id : String) : NodeState :=
  if room_id ∈ s.room_clocks then s
  else { s with room_clocks := s.room_clocks.insert room_id (Finmap.singleton s.node_id 0) }

/-- `NodeState.get_clock`: `self.room_clocks.get` with the singleton
clock mapping the node id to 0 as default. The method reads but never
assigns, so the post-state is the input state. -/
def NodeState.get_clock (s : NodeState) (room_id : String) : VectorClock × NodeState :=
  ((s.room_clocks.lookup room_id).getD (Finmap.singleton s.node_id 0), s)

/-- `NodeState.update_clock`: merge the current clock (lazy default for
an unjoined room) with the remote clock and store the result. -/
def NodeState.update_clock (s : NodeState) (room_id : String) (remote_clock : VectorClock) :
    VectorClock × NodeState :=
  let current := (s.get_clock room_id).1
  let merged := VectorClockService.merge current remote_clock
  (merged, { s with room_clocks := s.room_clocks.insert room_id merged })

/-- `NodeState.increment_clock`: bump the local node's counter in the
room's clock and store the result. -/
def NodeState.increment_clock (s : NodeState) (room_id : String) : VectorClock × NodeState :=
  let new_clock := VectorClockService.increment (s.get_clock room_id).1 s.node_id
  (new_clock, { s with room_clocks := s.room_clocks.insert room_id new_clock })

/-- The counter stored for node `k` in `room`, read through `get_clock`
(so an unjoined room reads as the lazy default singleton clock). -/
def room_entry (s : NodeState) (room k : String) : Nat :=
  vcGet (s.get_clock room).1 k

/-- `Message` from src/src/core/message.py. `message_id` and
`created_at` are produced by pydantic default factories
(`uuid.uuid4()`, `time.time()`); the embedding takes them as arguments
where a handler constructs a message. -/
structure Message where
  message_id : String
  room_id : String
  sender_id : String
  content : String
  vector_clock : VectorClock
  created_at : ℚ
deriving DecidableEq

/-- Insertion into a list ordered by `created_at` ascending. -/
def insertByTime (m : Message) : List Message → List Message
  | [] => [m]
  | x :: xs => if m.created_at ≤ x.created_at then m :: x :: xs else x :: insertByTime m xs

/-- `ORDER BY created_at ASC` of the sqlite message queries. -/
def sortByTime (l : List Message) : List Message :=
  l.foldr insertByTime []

/-- The durable content of a node's sqlite database
(src/src/services/storage.py): the `messages` log, the `snapshots`
table (one row per room: vector clock and `last_processed_time`) and
the `room_peers` table (one row per `(room_id, peer_url)`, carrying
`last_seen`). -/
structure StorageService where
  messages : List Message
  snapshots : List (String × VectorClock × ℚ)
  peers : List (String × String × ℚ)
deriving DecidableEq

/-- A sqlite connection as used by `StorageService._get_conn`:
`committed` is the durable state the connection was opened on,
`pending` accumulates the writes of the open implicit transaction. -/
structure SqliteConn where
  committed : StorageService
  pending : StorageService

/-- `sqlite3.connect`: both views start at the durable state. -/
def conn_open (s : StorageService) : SqliteConn :=
  ⟨s, s⟩

/-- `cursor.execute` of a write statement: only the pending view moves. -/
def SqliteConn.exec (c : SqliteConn) (f : StorageService → StorageService) : SqliteConn :=
  ⟨c.committed, f c.pending⟩

/-- `conn.commit()` followed by `conn.close()`: the pending writes
become durable. -/
def SqliteConn.commitClose (c : SqliteConn) : StorageService :=
  c.pending

/-- `conn.close()` without a prior `conn.commit()`: sqlite rolls the
open implicit transaction back, so the durable state is unchanged. -/
def SqliteConn.closeNoCommit (c : SqliteConn) : StorageService :=
  c.committed

/-- `StorageService.message_exists`: `SELECT 1 FROM messages WHERE
message_id = ?`. -/
def StorageService.message_exists (s : StorageService) (message_id : String) : Bool :=
  s.messages.any (fun m => m.message_id == message_id)

/-- `INSERT OR IGNORE INTO messages`: the row is dropped when the
primary key `message_id` is already present. -/
def insertOrIgnoreMessage (msgs : List Message) (m : Message) : List Message :=
  if msgs.any (fun x => x.message_id == m.message_id) then msgs else msgs ++ [m]

/-- `StorageService.add_message`: insert-or-ignore, then `conn.commit()`. -/
def StorageService.add_message (s : StorageService) (m : Message) : StorageService :=
  ((conn_open s).exec fun st =>
    { st with messages := insertOrIgnoreMessage st.messages m }).commitClose

/-- `INSERT OR REPLACE INTO snapshots` keyed by `room_id`. -/
def upsertSnapshot (rows : List (String × VectorClock × ℚ)) (room_id : String)
    (vector_clock : VectorClock) (now : ℚ) : List (String × VectorClock × ℚ) :=
  rows.filter (fun r => !(r.1 == room_id)) ++ [(room_id, vector_clock, now)]

/-- `StorageService.save_snapshot`: upsert stamped with the current
time, then `conn.commit()`. -/
def StorageService.save_snapshot (s : StorageService) (room_id : String)
    (vector_clock : VectorClock) (now : ℚ) : StorageService :=
  ((conn_open s).exec fun st =>
    { st with snapshots := upsertSnapshot st.snapshots room_id vector_clock now }).commitClose

/-- `StorageService.load_snapshot`: the room's snapshot row, or
`(None, 0.0)` when absent. -/
def StorageService.load_snapshot (s : StorageService) (room_id : String) :
    Option VectorClock × ℚ :=
  match s.snapshots.find? (fun r => r.1 == room_id) with
  | some r => (some r.2.1, r.2.2)
  | none => (none, 0)

/-- `StorageService.get_all_messages`: all messages ordered by
`created_at` ascending, `LIMIT ? OFFSET ?`. The Python defaults are
`limit=100, offset=0`. -/
def StorageService.get_all_messages (s : StorageService) (limit offset : Nat) : List Message :=
  ((sortByTime s.messages).drop offset).take limit

/-- `StorageService.get_peers`: the peer urls of the room's rows. -/
def StorageService.get_peers (s : StorageService) (room_id : String) : List String :=
  (s.peers.filter (fun r => r.1 == room_id)).map (fun r => r.2.1)

/-- `INSERT OR REPLACE INTO room_peers` keyed by `(room_id, peer_url)`. -/
def upsertPeer (rows : List (String × String × ℚ)) (room_id peer_url : String) (now : ℚ) :
    List (String × String × ℚ) :=
  rows.filter (fun r => !(r.1 == room_id && r.2.1 == peer_url)) ++ [(room_id, peer_url, now)]

/-- `StorageService.add_peer`: upsert stamped with the current time.
The source calls `conn.close()` where every other write calls
`conn.commit()`, so the open implicit transaction is rolled back. -/
def StorageService.add_peer (s : StorageService) (room_id peer_url : String) (now : ℚ) :
    StorageService :=
  ((conn_open s).exec fun st =>
    { st with peers := upsertPeer st.peers room_id peer_url now }).closeNoCommit

/-- Modelled from the spec: `get_messages_after` is called by
`LocalNodeService.initialize` (src/src/services/node.py) and exercised
by tests, but its definition is missing from
src/src/services/storage.py. Spec 4.3: "`get_messages_after(room_id,
timestamp) -> ordered sequence`: strictly-after query for delta replay
during recovery", room-scoped, ordered by creation time ascending. -/
def StorageService.get_messages_after (s : StorageService) (room_id : String) (timestamp : ℚ) :
    List Message :=
  sortByTime (s.messages.filter (fun m => m.room_id == room_id && decide (timestamp < m.created_at)))

/-- Modelled from the spec: `get_all_room_ids` is called by
`LocalNodeService.initialize` (src/src/services/node.py) and exercised
by tests, but its definition is missing from
src/src/services/storage.py. Spec 4.3: "`get_all_room_ids() -> set of
room_id`: union of rooms known via messages and via snapshots". -/
def StorageService.get_all_room_ids (s : StorageService) : List String :=
  (s.messages.map (fun m => m.room_id) ++ s.snapshots.map (fun r => r.1)).dedup

/-- `GossipService._push_data` (src/src/services/gossip.py): fetch
`storage.get_all_messages()` (the Python call uses the storage
defaults `limit=100, offset=0`) and POST each message individually to
the target's replication endpoint. The result lists the `(target,
message)` pushes offered in one cycle. -/
def GossipService.push_data (store : StorageService) (target : String) :
    List (String × Message) :=
  (store.get_all_messages 100 0).map (fun m => (target, m))

/-- Result of `LocalNodeService.initialize` (src/src/services/node.py):
normal return, the `ValueError` for a conflicting identity, or a
propagated storage fault (`StorageUnavailable`) raised while restoring
rooms. -/
inductive InitResult where
  | ok : InitResult
  | conflict (existing : String) : InitResult
  | storage_fault : InitResult
deriving DecidableEq

/-- The mutable fields of `LocalNodeService` the claims depend on:
`_state` and `_storage` (the gossip task handle is not modelled). -/
structure LocalNodeService where
  state : Option NodeState
  storage : Option StorageService
deriving DecidableEq

/-- `LocalNodeService.is_initialized`: `self._state is not None`. -/
def LocalNodeService.is_initialized (svc : LocalNodeService) : Bool :=
  svc.state.isSome

/-- The per-room body of the restore loop in
`LocalNodeService.initialize`: join the room, merge the snapshot clock
when present, then replay every message strictly after the snapshot
timestamp, merging each message's vector clock. -/
def restore_room (store : StorageService) (st : NodeState) (room_id : String) : NodeState :=
  let st1 := st.join_room room_id
  let snap := store.load_snapshot room_id
  let st2 := match snap.1 with
    | some c => (st1.update_clock room_id c).2
    | none => st1
  (store.get_messages_after room_id snap.2).foldl
    (fun s m => (s.update_clock room_id m.vector_clock).2) st2

/-- `LocalNodeService.initialize` (named `init` here because
`initialize` is reserved in Lean): no-op when already holding the same
identity, `ValueError` when holding a different one; otherwise open the
storage, construct the empty `NodeState` (both assigned to `self`
before any restore read), then restore every known room. The
`fault_on_restore` flag is the outcome of the storage reads of the
restore phase: when `true` the first read raises, the exception
propagates, and the already-assigned `_state` and `_storage` stay in
place (nothing is rolled back). -/
def LocalNodeService.init (svc : LocalNodeService) (user_id : String) (store : StorageService)
    (fault_on_restore : Bool) : LocalNodeService × InitResult :=
  match svc.state with
  | some st => if st.node_id ≠ user_id then (svc, .conflict st.node_id) else (svc, .ok)
  | none =>
    let svc1 : LocalNodeService := ⟨some ⟨user_id, ∅⟩, some store⟩
    if fault_on_restore then (svc1, .storage_fault)
    else
      let final := (store.get_all_room_ids).foldl (restore_room store) ⟨user_id, ∅⟩
      (⟨some final, some store⟩, .ok)

/-- A publish to the cluster bus: channel name and serialized message. -/
abbrev PubEvent := String × Message

/-- `ConnectionManager.publish` (src/src/services/websocket.py):
publish the message on the channel `chat:<room_id>`. The effect is
recorded on the publish log. -/
def ConnectionManager.publish (log : List PubEvent) (message : Message) (room_id : String) :
    List PubEvent :=
  log ++ [("chat:" ++ room_id, message)]

/-- Status values returned by the replication endpoint:
`replicated`, `ignored` (duplicate), or the 503 guard. -/
inductive ReplStatus where
  | unavailable : ReplStatus
  | ignored : ReplStatus
  | replicated : ReplStatus
deriving DecidableEq

/-- `replication_endpoint` (src/src/api/routes.py): guard on
readiness, short-circuit duplicates by `message_exists`, otherwise
`update_clock` then `add_message`. No fanout publish happens on this
path, so the publish log is returned untouched. -/
def replication_endpoint (svc : LocalNodeService) (message : Message) (log : List PubEvent) :
    LocalNodeService × ReplStatus × List PubEvent :=
  match svc.state, svc.storage with
  | some st, some store =>
    if store.message_exists message.message_id then (svc, .ignored, log)
    else
      let st1 := (st.update_clock message.room_id message.vector_clock).2
      let store1 := store.add_message message
      (⟨some st1, some store1⟩, .replicated, log)
  | _, _ => (svc, .unavailable, log)

/-- Outcome of `send_message`: the 500 guard, or 201 with the created
message; both carry the publish log. -/
inductive SendResult where
  | unavailable (svc : LocalNodeService) (published : List PubEvent) : SendResult
  | created (svc : LocalNodeService) (msg : Message) (published : List PubEvent) : SendResult
deriving DecidableEq

/-- `send_message` (src/src/api/routes.py): guard on readiness,
increment the local clock, read the clock back, build the message
(`msg_id` and `now` stand for the pydantic default factories), persist
it, then publish once to the fanout channel. -/
def send_message (svc : LocalNodeService) (sender content room_id msg_id : String) (now : ℚ)
    (log : List PubEvent) : SendResult :=
  match svc.state, svc.storage with
  | some st, some store =>
    let st1 := (st.increment_clock room_id).2
    let current_clock := (st1.get_clock room_id).1
    let new_msg : Message := ⟨msg_id, room_id, sender, content, current_clock, now⟩
    let store1 := store.add_message new_msg
    let log1 := ConnectionManager.publish log new_msg room_id
    .created ⟨some st1, some store1⟩ new_msg log1
  | _, _ => .unavailable svc log

/-- The publish log carried by a `send_message` outcome. -/
def SendResult.published : SendResult → List PubEvent
  | .unavailable _ l => l
  | .created _ _ l => l

/-- An inbound pub/sub payload as the listener of
`ConnectionManager._subscribe_to_redis` sees it: `pubsub.listen()`
yields a dict with a `type` entry and a `data` entry (the serialized
message text). -/
structure PubSubPayload where
  ptype : String
  data : String
deriving DecidableEq

/-- The listener loop body of `_subscribe_to_redis`
(src/src/services/websocket.py), run over a stream of payloads.
For every payload whose `type` is `"message"`, the line
`data_dict = json.loads(message.data["data"])` evaluates
`message.data` first - an attribute access on the dict yielded by
`pubsub.listen()` - which raises `AttributeError` before `json.loads`
runs, for well-formed and malformed data alike. The raise sits OUTSIDE
the per-message try/except, is not a `CancelledError`, so the outer
`except Exception` handler logs it and the coroutine ends: the inner
try/except and the `broadcast_to_local` call are unreachable. Returns
the messages broadcast to local listeners (necessarily none) and
whether the task terminated before consuming the whole stream. -/
def listener_run : List PubSubPayload → List Message × Bool
  | [] => ([], false)
  | p :: rest =>
    if p.ptype = "message" then ([], true)
    else listener_run rest

/-- Snapshot clock of the C3 recovery scenario. -/
def c3_snap_clock : VectorClock :=
  (Finmap.singleton "alice" (10 : Nat)).insert "bob" 5

/-- The one stored message of the C3 recovery scenario, strictly after
the snapshot time 100. -/
def c3_msg : Message :=
  ⟨"m1", "general", "alice", "hi", (Finmap.singleton "alice" (11 : Nat)).insert "bob" 5, 105⟩

/-- Durable store of the C3 recovery scenario. -/
def c3_store : StorageService :=
  ⟨[c3_msg], [("general", c3_snap_clock, 100)], []⟩

/-- A stored message with distinct id and creation time, for the C4
scenario. -/
def mkMsg (i : Nat) : Message :=
  ⟨Nat.repr i, "general", "alice", "hi", ∅, (i : ℚ)⟩

/-- A store holding 101 distinct messages: one more than the default
page `get_all_messages` returns. -/
def big_store : StorageService :=
  ⟨(List.range 101).map mkMsg, [], []⟩

/-- The message `send_message` builds on a fresh node "alice" for the
payload `content="hi", room_id="general"`: the incremented clock maps
"alice" to 1. -/
def witness_msg : Message :=
  ⟨"m1", "general", "alice", "hi", Finmap.singleton "alice" 1, 7⟩

/-- The service state after that send: the room clock and the stored
message log both hold the new message's data. -/
def witness_svc : LocalNodeService :=
  ⟨some ⟨"alice", Finmap.singleton "general" (Finmap.singleton "alice" 1)⟩,
   some ⟨[witness_msg], [], []⟩⟩

/-- Looking up a key after folding key-determined inserts over a key list. -/
theorem lookup_list_foldl_insertKeyed (f : String → Nat) :
    ∀ (l : List String) (acc : VectorClock) (x : String),
      (l.foldl (insertKeyed f) acc).lookup x
        = if x ∈ l then some (f x) else acc.lookup x := by
  intro l
  induction l with
  | nil => intro acc x; simp
  | cons a t ih =>
    intro acc x
    simp only [List.foldl_cons, ih, List.mem_cons]
    by_cases hxt : x ∈ t
    · simp [hxt]
    · by_cases hxa : x = a
      · subst hxa
        simp [hxt, insertKeyed, Finmap.lookup_insert]
      · simp [hxt, hxa, insertKeyed, Finmap.lookup_insert_of_ne _ hxa]

/-- Looking up a key after folding key-determined inserts over a key multiset. -/
theorem lookup_foldl_insertKeyed (f : String → Nat) (s : Multiset String)
    (acc : VectorClock) (x : String) :
    (Multiset.foldl (insertKeyed f) acc s).lookup x
      = if x ∈ s then some (f x) else acc.lookup x := by
  induction s using Quotient.inductionOn with
  | h l => simpa [Multiset.coe_foldl] using lookup_list_foldl_insertKeyed f l acc x

/-- Lookup description of `merge`: defined on the union of the key
sets, value is the pointwise maximum. -/
theorem merge_lookup (a b : VectorClock) (x : String) :
    (VectorClockService.merge a b).lookup x
      = if x ∈ a ∨ x ∈ b then some (max (vcGet a x) (vcGet b x)) else none := by
  unfold VectorClockService.merge
  rw [lookup_foldl_insertKeyed]
  by_cases h : x ∈ a ∨ x ∈ b
  · rw [if_pos, if_pos h]
    simpa [Finset.mem_union, Finmap.mem_keys] using h
  · rw [if_neg, if_neg h]
    · simp
    · simpa [Finset.mem_union, Finmap.mem_keys] using h

/-- A present key looks up to its `vcGet` value. -/
theorem lookup_eq_some_vcGet {c : VectorClock} {x : String} (h : x ∈ c) :
    c.lookup x = some (vcGet c x) := by
  obtain ⟨v, hv⟩ := Finmap.mem_iff.mp h
  simp [vcGet, hv]

/-- `vcGet` of a merge is the pointwise maximum (absent keys are 0). -/
theorem vcGet_merge (a b : VectorClock) (x : String) :
    vcGet (VectorClockService.merge a b) x = max (vcGet a x) (vcGet b x) := by
  unfold vcGet
  rw [merge_lookup]
  by_cases h : x ∈ a ∨ x ∈ b
  · simp [h, vcGet]
  · push_neg at h
    have ha : a.lookup x = none := Finmap.lookup_eq_none.mpr h.1
    have hb : b.lookup x = none := Finmap.lookup_eq_none.mpr h.2
    simp [h.1, h.2, vcGet, ha, hb]

/-- `vcGet` after `increment`. -/
theorem vcGet_increment (c : VectorClock) (nid x : String) :
    vcGet (VectorClockService.increment c nid) x
      = if x = nid then vcGet c nid + 1 else vcGet c x := by
  unfold VectorClockService.increment vcGet
  by_cases h : x = nid
  · subst h; simp [Finmap.lookup_insert]
  · simp [h, Finmap.lookup_insert_of_ne _ h]

/-- C7: `merge` is commutative and idempotent: for all vector clocks A
and B, `merge(A, B) == merge(B, A)` and `merge(A, A) == A`, where merge
takes the per-key maximum over the union of keys with absent keys
treated as 0 (Python `dict` equality, i.e. `Finmap` equality). -/
theorem merge_comm_and_idem (a b : VectorClock) :
    VectorClockService.merge a b = VectorClockService.merge b a ∧
    VectorClockService.merge a a = a := by
  constructor
  · apply Finmap.ext_lookup
    intro x
    rw [merge_lookup, merge_lookup]
    by_cases h : x ∈ a ∨ x ∈ b
    · rw [if_pos h, if_pos h.symm, Nat.max_comm]
    · rw [if_neg h, if_neg fun hc => h hc.symm]
  · apply Finmap.ext_lookup
    intro x
    rw [merge_lookup]
    by_cases h : x ∈ a
    · simp only [h, true_or, if_true, Nat.max_self]
      exact (lookup_eq_some_vcGet h).symm
    · simp only [h, false_or, or_self, if_false]
      exact (Finmap.lookup_eq_none.mpr h).symm

/-- C8: for a room absent from `room_clocks`, `get_clock` returns the
singleton clock mapping `node_id` to 0 and leaves the state unchanged
(no auto-join); `join_room` seeds that singleton only when the room is
absent, and is a no-op that never resets an existing clock. -/
theorem lazy_clock_default (s : NodeState) (room : String) :
    (room ∉ s.room_clocks → (s.get_clock room).1 = Finmap.singleton s.node_id 0) ∧
    (s.get_clock room).2 = s ∧
    (room ∉ s.room_clocks →
      s.join_room room
        = { s with room_clocks := s.room_clocks.insert room (Finmap.singleton s.node_id 0) }) ∧
    (room ∈ s.room_clocks → s.join_room room = s) := by
  refine ⟨fun h => ?_, rfl, fun h => ?_, fun h => ?_⟩
  · simp [NodeState.get_clock, Finmap.lookup_eq_none.mpr h]
  · simp [NodeState.join_room, h]
  · simp [NodeState.join_room, h]

/-- C8 witness: evaluated on a node `"n1"` holding one clock for room
`"r1"`; the claims are checked for the absent room `"r2"` and the
present room `"r1"`. -/
theorem lazy_clock_default_witness :
    ((⟨"n1", Finmap.singleton "r1" (Finmap.singleton "n1" 5)⟩ : NodeState).get_clock "r2").1
      = Finmap.singleton "n1" 0 ∧
    (⟨"n1", Finmap.singleton "r1" (Finmap.singleton "n1" 5)⟩ : NodeState).join_room "r1"
      = ⟨"n1", Finmap.singleton "r1" (Finmap.singleton "n1" 5)⟩ :=
  ⟨(lazy_clock_default ⟨"n1", Finmap.singleton "r1" (Finmap.singleton "n1" 5)⟩ "r2").1
      (by decide),
   (lazy_clock_default ⟨"n1", Finmap.singleton "r1" (Finmap.singleton "n1" 5)⟩ "r1").2.2.2
      (by decide)⟩

/-- C9: each of `join_room`, `update_clock` and `increment_clock` leaves
every stored counter of the target room at least as large as before:
`join_room` preserves the entries exactly, `update_clock` stores the
pointwise maximum of the current and remote clocks, and
`increment_clock` raises exactly the local node's counter by 1. -/
theorem clock_monotonicity (s : NodeState) (room k : String) (remote : VectorClock) :
    room_entry (s.join_room room) room k = room_entry s room k ∧
    room_entry (s.update_clock room remote).2 room k
      = max (room_entry s room k) (vcGet remote k) ∧
    room_entry (s.increment_clock room).2 room k
      = (if k = s.node_id then room_entry s room k + 1 else room_entry s room k) ∧
    room_entry s room k ≤ room_entry (s.join_room room) room k ∧
    room_entry s room k ≤ room_entry (s.update_clock room remote).2 room k ∧
    room_entry s room k ≤ room_entry (s.increment_clock room).2 room k := by
  have hjoin : room_entry (s.join_room room) room k = room_entry s room k := by
    unfold NodeState.join_room
    by_cases h : room ∈ s.room_clocks
    · simp [h]
    · simp [h, room_entry, NodeState.get_clock, Finmap.lookup_insert,
        Finmap.lookup_eq_none.mpr h]
  have hupd : room_entry (s.update_clock room remote).2 room k
      = max (room_entry s room k) (vcGet remote k) := by
    simp only [room_entry, NodeState.update_clock, NodeState.get_clock,
      Finmap.lookup_insert, Option.getD_some]
    exact vcGet_merge _ _ _
  have hinc : room_entry (s.increment_clock room).2 room k
      = (if k = s.node_id then room_entry s room k + 1 else room_entry s room k) := by
    simp only [room_entry, NodeState.increment_clock, NodeState.get_clock,
      Finmap.lookup_insert, Option.getD_some]
    rw [vcGet_increment]
    by_cases h : k = s.node_id
    · subst h; simp
    · simp [h]
  refine ⟨hjoin, hupd, hinc, hjoin.ge, ?_, ?_⟩
  · rw [hupd]; exact Nat.le_max_left _ _
  · rw [hinc]
    by_cases h : k = s.node_id
    · simp [h]
    · simp [h]

/-- Adding a message makes it exist: `INSERT OR IGNORE` either finds
the id present already or appends the row. -/
theorem message_exists_add_message (s : StorageService) (m : Message) :
    (s.add_message m).message_exists m.message_id = true := by
  unfold StorageService.add_message SqliteConn.commitClose SqliteConn.exec conn_open
    StorageService.message_exists insertOrIgnoreMessage
  by_cases h : s.messages.any (fun x => x.message_id == m.message_id)
  · simp [h]
  · simp [h, List.any_append]

/-- C1: echo suppression: the replication endpoint returns the publish
log untouched on every path (fanout publish is never invoked for a
gossip-received message), while a message accepted on the local send
path extends the log by exactly one publish of the created message on
its room's channel. -/
theorem echo_suppression (svc : LocalNodeService) (message : Message) (log : List PubEvent)
    (sender content room_id msg_id : String) (now : ℚ) :
    (replication_endpoint svc message log).2.2 = log ∧
    (∀ svc' msg pubs,
      send_message svc sender content room_id msg_id now log = .created svc' msg pubs →
        pubs = log ++ [("chat:" ++ room_id, msg)]) := by
  obtain ⟨os, ot⟩ := svc
  constructor
  · cases os <;> cases ot
    · rfl
    · rfl
    · rfl
    · simp only [replication_endpoint]
      split <;> rfl
  · intro svc' msg pubs h
    cases os <;> cases ot <;> simp [send_message] at h
    obtain ⟨-, h2, h3⟩ := h
    subst h2
    subst h3
    rfl

/-- C1 witness: a fresh ready node "alice" sends "hi" to room
"general": the send path yields `created` and the publish log grows by
exactly the one `chat:general` event carrying the created message. -/
theorem echo_suppression_witness :
    [("chat:general", witness_msg)] = [] ++ [("chat:" ++ "general", witness_msg)] :=
  (echo_suppression ⟨some ⟨"alice", ∅⟩, some ⟨[], [], []⟩⟩ witness_msg []
      "alice" "hi" "general" "m1" 7).2
    witness_svc witness_msg [("chat:general", witness_msg)] (by decide)

/-- C2: idempotent ingestion: replaying the same message through the
replication endpoint leaves the whole service state (stored messages
and per-room clocks) exactly as after the first application, and the
second application reports `ignored`. -/
theorem idempotent_ingestion (svc : LocalNodeService) (m : Message) (st0 : NodeState)
    (store0 : StorageService) (h1 : svc.state = some st0) (h2 : svc.storage = some store0) :
    (replication_endpoint (replication_endpoint svc m []).1 m
        (replication_endpoint svc m []).2.2).1 = (replication_endpoint svc m []).1 ∧
    (replication_endpoint (replication_endpoint svc m []).1 m
        (replication_endpoint svc m []).2.2).2.1 = ReplStatus.ignored := by
  obtain ⟨os, ot⟩ := svc
  simp only at h1 h2
  subst h1
  subst h2
  by_cases hex : store0.message_exists m.message_id
  · simp [replication_endpoint, hex]
  · simp [replication_endpoint, hex, message_exists_add_message]

/-- C2 witness: replaying a concrete message on a fresh ready node
"bob": the second application is `ignored` and changes nothing. -/
theorem idempotent_ingestion_witness :
    (replication_endpoint
        (replication_endpoint ⟨some ⟨"bob", ∅⟩, some ⟨[], [], []⟩⟩
          ⟨"w2", "general", "bob", "yo", ∅, 3⟩ []).1
        ⟨"w2", "general", "bob", "yo", ∅, 3⟩
        (replication_endpoint ⟨some ⟨"bob", ∅⟩, some ⟨[], [], []⟩⟩
          ⟨"w2", "general", "bob", "yo", ∅, 3⟩ []).2.2).1
      = (replication_endpoint ⟨some ⟨"bob", ∅⟩, some ⟨[], [], []⟩⟩
          ⟨"w2", "general", "bob", "yo", ∅, 3⟩ []).1 ∧
    (replication_endpoint
        (replication_endpoint ⟨some ⟨"bob", ∅⟩, some ⟨[], [], []⟩⟩
          ⟨"w2", "general", "bob", "yo", ∅, 3⟩ []).1
        ⟨"w2", "general", "bob", "yo", ∅, 3⟩
        (replication_endpoint ⟨some ⟨"bob", ∅⟩, some ⟨[], [], []⟩⟩
          ⟨"w2", "general", "bob", "yo", ∅, 3⟩ []).2.2).2.1 = ReplStatus.ignored :=
  idempotent_ingestion ⟨some ⟨"bob", ∅⟩, some ⟨[], [], []⟩⟩
    ⟨"w2", "general", "bob", "yo", ∅, 3⟩ ⟨"bob", ∅⟩ ⟨[], [], []⟩ rfl rfl

/-- C3: recovery correctness: with a stored snapshot clock
`{alice:10, bob:5}` at time 100 for room "general" and exactly one
stored message for that room strictly after 100 carrying
`{alice:11, bob:5}`, initialization on a fresh process restores the
room clock to the merge `{alice:11, bob:5}` joined with the local
node "carol"'s seeded zero entry. -/
theorem recovery_correctness :
    ((LocalNodeService.init ⟨none, none⟩ "carol" c3_store false).1).state.map
        (fun st => st.room_clocks.lookup "general")
      = some (some (((Finmap.singleton "carol" (0 : Nat)).insert "bob" 5).insert "alice" 11)) := by
  decide

/-- Ordered insert grows the length by one. -/
theorem length_insertByTime (m : Message) (l : List Message) :
    (insertByTime m l).length = l.length + 1 := by
  induction l with
  | nil => rfl
  | cons x xs ih =>
    unfold insertByTime
    split
    · simp
    · simp [ih]

/-- Sorting preserves the length. -/
theorem length_sortByTime (l : List Message) : (sortByTime l).length = l.length := by
  induction l with
  | nil => rfl
  | cons x xs ih =>
    show (insertByTime x (sortByTime xs)).length = xs.length + 1
    rw [length_insertByTime, ih]

/-- Membership through ordered insert. -/
theorem mem_insertByTime (a m : Message) (l : List Message) :
    a ∈ insertByTime m l ↔ a = m ∨ a ∈ l := by
  induction l with
  | nil => simp [insertByTime]
  | cons x xs ih =>
    unfold insertByTime
    split
    · simp [List.mem_cons]
    · simp only [List.mem_cons, ih]
      tauto

/-- Membership is preserved by sorting. -/
theorem mem_sortByTime (a : Message) (l : List Message) : a ∈ sortByTime l ↔ a ∈ l := by
  induction l with
  | nil => simp [sortByTime]
  | cons x xs ih =>
    rw [show sortByTime (x :: xs) = insertByTime x (sortByTime xs) from rfl,
      mem_insertByTime, ih, List.mem_cons]

/-- C4 counterexample: with 101 stored messages, the periodic gossip
push (which fetches `get_all_messages()` with the Python default
`limit=100`) does not offer every stored message: the message with the
latest creation time is absent from the pushed set. -/
theorem gossip_push_counterexample :
    mkMsg 100 ∈ big_store.messages ∧
    mkMsg 100 ∉ (GossipService.push_data big_store "http://peer-b").map Prod.snd := by
  decide

/-- C4 amended: in every gossip push cycle the selected peer is offered
the first page of 100 messages ordered by creation time; when at most
100 messages are stored this is the node's full known message set. -/
theorem gossip_push_first_page (store : StorageService) (target : String)
    (h : store.messages.length ≤ 100) :
    ∀ m ∈ store.messages, m ∈ (GossipService.push_data store target).map Prod.snd := by
  intro m hm
  unfold GossipService.push_data StorageService.get_all_messages
  rw [List.drop_zero, List.take_of_length_le (by rw [length_sortByTime]; exact h)]
  simp only [List.map_map]
  have hcomp : (Prod.snd ∘ fun m : Message => (target, m)) = id := rfl
  rw [hcomp, List.map_id]
  exact (mem_sortByTime m _).mpr hm

/-- C4 witness: a store holding a single message pushes exactly that
message. -/
theorem gossip_push_first_page_witness :
    mkMsg 0 ∈ (GossipService.push_data ⟨[mkMsg 0], [], []⟩ "http://peer-b").map Prod.snd :=
  gossip_push_first_page ⟨[mkMsg 0], [], []⟩ "http://peer-b" (by decide) (mkMsg 0) (by decide)

/-- C5: `add_peer` executes its upsert but calls `conn.close()` without
`conn.commit()`, so sqlite rolls the write back: the durable store is
unchanged and a following `get_peers` does not contain the added url
(contradicting the spec and the repo's `test_peers_management`). -/
theorem add_peer_rollback (store : StorageService) (room_id peer_url : String) (now : ℚ) :
    store.add_peer room_id peer_url now = store ∧
    (store.add_peer room_id peer_url now).get_peers room_id = store.get_peers room_id :=
  ⟨rfl, rfl⟩

/-- C6: the per-room fanout listener task dies at the first payload of
type `"message"` - `message.data["data"]` raises `AttributeError`
before `json.loads` runs, outside the per-message try/except, so the
outer handler ends the task. On the repo's own test stream (the
malformed `"invalid_json"` payload followed by a well-formed one)
nothing is broadcast and the task terminates instead of logging and
skipping; even a well-formed payload alone kills the task, and only
non-`"message"` payloads are survived. -/
theorem listener_stops_on_malformed_payload :
    listener_run [⟨"message", "invalid_json"⟩, ⟨"message", "well_formed_message_json"⟩]
      = ([], true) ∧
    listener_run [⟨"message", "well_formed_message_json"⟩] = ([], true) ∧
    listener_run [⟨"subscribe", "1"⟩] = ([], false) := by
  decide

/-- C10: initialization is not atomic: when the restore phase raises a
storage fault after `_state` was assigned, the service reports
initialized with the partial state kept, and a later initialization
under a different identity raises the identity-conflict error naming
the first identity - even though the first initialization never
completed. -/
theorem init_non_atomic (user_id other_id : String) (store store' : StorageService)
    (fault' : Bool) (h : other_id ≠ user_id) :
    (LocalNodeService.init ⟨none, none⟩ user_id store true).2 = InitResult.storage_fault ∧
    ((LocalNodeService.init ⟨none, none⟩ user_id store true).1).is_initialized = true ∧
    (LocalNodeService.init (LocalNodeService.init ⟨none, none⟩ user_id store true).1 other_id
        store' fault').2 = InitResult.conflict user_id := by
  have h1 : LocalNodeService.init ⟨none, none⟩ user_id store true
      = (⟨some ⟨user_id, ∅⟩, some store⟩, InitResult.storage_fault) := by
    simp [LocalNodeService.init]
  refine ⟨by rw [h1], by rw [h1]; rfl, ?_⟩
  rw [h1]
  simp [LocalNodeService.init, Ne.symm h]

/-- C10 witness: a storage fault while initializing as "alice" leaves
the node claiming to be initialized, and initializing as "bob"
afterwards reports the conflict with "alice". -/
theorem init_non_atomic_witness :
    (LocalNodeService.init ⟨none, none⟩ "alice" ⟨[], [], []⟩ true).2
        = InitResult.storage_fault ∧
    ((LocalNodeService.init ⟨none, none⟩ "alice" ⟨[], [], []⟩ true).1).is_initialized = true ∧
    (LocalNodeService.init (LocalNodeService.init ⟨none, none⟩ "alice" ⟨[], [], []⟩ true).1
        "bob" ⟨[], [], []⟩ false).2 = InitResult.conflict "alice" :=
  init_non_atomic "alice" "bob" ⟨[], [], []⟩ ⟨[], [], []⟩ false (by decide)
